import Mathlib

/-!
Verification development for the `graphql-http` middleware: the request
validation, content-negotiation, and status-code decision pipeline that adapts
an HTTP request/response exchange to the GraphQL-over-HTTP specification.

The repository ships the README, the dependency re-export module and the test
suite; the middleware module itself (`graphql_http.ts`) is not among the
available sources, so the pipeline below is modelled from the specification,
with the concrete status codes, messages and header values pinned by the test
suite (`graphql_http_test.ts`).
-/

set_option autoImplicit false

namespace GraphqlHttp

/-- JSON values, used for decoded message bodies, GraphQL variables and
serialized response bodies. -/
inductive Json where
  | null
  | bool (b : Bool)
  | num (n : Int)
  | str (s : String)
  | arr (elts : List Json)
  | obj (fields : List (String × Json))

/-- HTTP method of an incoming request. -/
inductive Method where
  | get
  | post
  | other (s : String)
  deriving DecidableEq

/-- The two supported response media types. -/
inductive MediaType where
  | graphqlJson
  | json
  deriving DecidableEq

/-- One candidate of a parsed `Accept` header: a media-type string together
with its quality value. The quality value is kept in thousandths (RFC 7231
quality values carry at most three decimal places), the default `q=1.0`
being `1000`. -/
structure AcceptItem where
  mediaType : String
  q : Nat
  deriving DecidableEq

/-- Decoded message body of a POST request: absent, present but not valid
JSON, or decoded to a JSON value. -/
inductive Body where
  | absent
  | malformed
  | jsonBody (j : Json)

/-- An incoming HTTP request, at the level of detail the pipeline inspects:
method, declared `Content-Type` header (if any), parsed `Accept` header
(`none` when the header is absent), decoded body, and the URL query
component as an ordered list of key/value pairs. -/
structure Request where
  method : Method
  contentTypeHeader : Option String
  accept : Option (List AcceptItem)
  body : Body
  queryParams : List (String × String)

/-- The GraphQL execution parameters extracted from a request. -/
structure GraphQLParameters where
  query : String
  operationName : Option String
  variableValues : Option (List (String × Json))

/-- An HTTP-layer error: a fixed status category (400/405/406/415) and a
message. -/
structure HttpError where
  status : Nat
  message : String
  deriving DecidableEq

/-- Outcome of parameter extraction and validation. -/
inductive ValidationOutcome where
  | valid (p : GraphQLParameters)
  | invalid (e : HttpError)

/-- Result returned by the external GraphQL execution engine. The core treats
the error entries as opaque JSON, inspecting only presence/absence of
`data` and `errors`. -/
structure ExecResult where
  data : Option Json
  errors : Option (List Json)
  extensions : Option Json

/-- The single output of the Response Resolver: status code, serialized JSON
body and the response `Content-Type` header value. -/
structure ResponseDecision where
  status : Nat
  body : Json
  contentType : String

/-- GraphQL operation type. Subscriptions are not supported by the
middleware, so an operation is a query or a mutation. -/
inductive OperationType where
  | query
  | mutation
  deriving DecidableEq

/-- A GraphQL operation of a parsed document: optional name and operation
type. -/
structure Operation where
  name : Option String
  opType : OperationType
  deriving DecidableEq

/-- Modelled from the spec: the Execution Delegate interface consumed by the
core (the concrete engine is the external `graphql` library). `parse`
returns the operations of the document, or `none` on a syntax error;
`execute` returns an execution result or throws (`Except.error`) for
internal faults. -/
structure Engine where
  parse : String → Option (List Operation)
  execute : GraphQLParameters → Except String ExecResult

/-! ## Content Negotiator (spec §4.2) -/

/-- Modelled from the spec: classification of one `Accept` media-type string.
Recognized types are `application/graphql+json`, `application/json` and the
wildcard, which is treated as an implicit fallback accepting
`application/json`. -/
def recognizedType (s : String) : Option MediaType :=
  if s = "application/graphql+json" then some MediaType.graphqlJson
  else if s = "application/json" then some MediaType.json
  else if s = "*/*" then some MediaType.json
  else none

/-- Modelled from the spec: fold step selecting the best candidate; a
strictly higher quality value wins, and declaration order (the earlier
item) breaks ties of equal quality. -/
def chooseCandidate (acc : Option (MediaType × Nat)) (c : MediaType × Nat) :
    Option (MediaType × Nat) :=
  match acc with
  | none => some c
  | some b => if b.2 < c.2 then some c else some b

/-- Modelled from the spec: the Content Negotiator, absent from the shipped
sources. An absent `Accept` header expresses no preference and falls back
to `application/json`; otherwise the recognized candidates with positive
quality compete by quality value, declaration order breaking ties (the
README requires `application/graphql+json` listed first to win over
`application/json`). `none` means no recognized type is acceptable
(category 406). -/
def negotiate (accept : Option (List AcceptItem)) : Option MediaType :=
  match accept with
  | none => some MediaType.json
  | some items =>
    let cands :=
      (items.filterMap fun i =>
        (recognizedType i.mediaType).map fun mt => (mt, i.q)).filter
        fun c => 0 < c.2
    (cands.foldl chooseCandidate none).map fun c => c.1

/-! ## Response serialization and the Response Resolver (spec §4.5) -/

/-- Serialized `Content-Type` header for a negotiated media type: the charset
parameter is appended, as pinned by the test suite for
`application/json`. -/
def mediaTypeString : MediaType → String
  | MediaType.graphqlJson => "application/graphql+json; charset=UTF-8"
  | MediaType.json => "application/json; charset=UTF-8"

/-- Body of an HTTP-layer error response: an object with a single `errors`
array of message objects. -/
def errorBody (msgs : List String) : Json :=
  Json.obj [("errors", Json.arr (msgs.map fun m => Json.obj [("message", Json.str m)]))]

/-- A key/value field present only when the value is. -/
def optField (k : String) (v : Option Json) : List (String × Json) :=
  match v with
  | some j => [(k, j)]
  | none => []

/-- Serialized body of an execution result: the fields `data`, `errors` and
`extensions`, each present exactly when the result carries it. -/
def execBody (r : ExecResult) : Json :=
  Json.obj (optField "data" r.data ++ optField "errors" (r.errors.map Json.arr)
    ++ optField "extensions" r.extensions)

/-- The classified outcome handed to the Response Resolver: an HTTP-layer
error, an execution result, or an unknown/internal fault. -/
inductive Outcome where
  | httpError (e : HttpError)
  | exec (r : ExecResult)
  | fault (msg : String)

/-- Modelled from the spec: the Response Resolver decision table, absent from
the shipped sources. HTTP-layer errors keep their category under both media
types; a result without `errors` and a result with `errors` and `data`
(field errors) are 200; a result with `errors` and no `data` at all carries
request-level errors (the execution engine omits the `data` key exactly
when execution never reached the root resolvers) and is 400 under
`application/graphql+json` but 200 under `application/json`; internal
faults are 500. -/
def resolveResponse (o : Outcome) (mt : MediaType) : ResponseDecision :=
  match o with
  | Outcome.httpError e => ⟨e.status, errorBody [e.message], mediaTypeString mt⟩
  | Outcome.fault m => ⟨500, errorBody [m], mediaTypeString mt⟩
  | Outcome.exec r =>
    match r.errors, r.data with
    | none, _ => ⟨200, execBody r, mediaTypeString mt⟩
    | some _, some _ => ⟨200, execBody r, mediaTypeString mt⟩
    | some _, none =>
      ⟨if mt = MediaType.graphqlJson then 400 else 200, execBody r, mediaTypeString mt⟩

/-! ## Parameter Extractor (spec §4.1) -/

/-- First value of a URL query-string parameter. -/
def lookupParam (qs : List (String × String)) (k : String) : Option String :=
  (qs.find? fun kv => kv.1 == k).map fun kv => kv.2

/-- First value of a field of a decoded JSON object. -/
def fieldOf (fields : List (String × Json)) (k : String) : Option Json :=
  (fields.find? fun kv => kv.1 == k).map fun kv => kv.2

/-- Characters of a media-type string up to the first parameter separator. -/
def upToSemicolon : List Char → List Char
  | [] => []
  | c :: cs => if c = ';' then [] else c :: upToSemicolon cs

/-- Modelled from the spec: normalization of a declared `Content-Type` header
value to its bare media-type name (the `parseMediaType` utility re-exported
by `deps.ts`): the part before any parameter, trimmed of surrounding spaces
and lowercased. -/
def mediaTypeName (ct : String) : String :=
  String.mk ((((upToSemicolon ct.data).dropWhile fun c => c = ' ').reverse.dropWhile
    fun c => c = ' ').reverse.map Char.toLower)

/-- Modelled from the spec: whether a declared `Content-Type` value names one
of the two supported JSON media types. -/
def supportedMediaType (ct : String) : Bool :=
  mediaTypeName ct = "application/json" || mediaTypeName ct = "application/graphql+json"

/-- Message for a GET request without a `query` parameter, pinned by the test
suite. -/
def queryRequiredMsg : String := "The parameter is required. \"query\""

/-- Message for a POST request without a `Content-Type` header, pinned by the
test suite. -/
def headerRequiredMsg : String := "The header is required. \"Content-Type\""

/-- Message for an unsupported `Content-Type` value. -/
def unsupportedMediaTypeMsg : String :=
  "The media type is not supported. \"Content-Type\" must be \"application/json\" or \"application/graphql+json\""

/-- Message for a POST body that is not valid JSON, pinned by the test
suite. -/
def malformedBodyMsg : String := "The message body is invalid. Invalid JSON format."

/-- Message for malformed `variables`. -/
def malformedVariablesMsg : String :=
  "The parameter is invalid. \"variables\" must be JSON object format"

/-- Message for a non-string `query` value. -/
def invalidQueryMsg : String := "The parameter is invalid. \"query\" must be a string"

/-- Message for a non-string `operationName` value. -/
def invalidOperationNameMsg : String :=
  "The parameter is invalid. \"operationName\" must be a string"

/-- Message for a mutation requested over GET. -/
def mutationOnGetMsg : String :=
  "Invalid GraphQL operation. Can not execute a mutation over the GET method."

/-- Message for an HTTP method other than GET or POST. -/
def invalidMethodMsg : String := "The method is invalid. Only GET or POST is allowed."

/-- Message for a non-negotiable `Accept` header. -/
def notAcceptableMsg : String :=
  "The header is invalid. \"Accept\" must include \"application/graphql+json\" or \"application/json\""

/-- Modelled from the spec: GET-side extraction. `query` is required from the
URL query component; `operationName` is taken as-is (query-string values
are strings); `variables`, if present, must be a string decoding to a JSON
object under the JSON decoder `dec`. -/
def extractGet (dec : String → Option Json) (qs : List (String × String)) :
    ValidationOutcome :=
  match lookupParam qs "query" with
  | none => ValidationOutcome.invalid ⟨400, queryRequiredMsg⟩
  | some q =>
    match lookupParam qs "variables" with
    | none => ValidationOutcome.valid ⟨q, lookupParam qs "operationName", none⟩
    | some vs =>
      match dec vs with
      | some (Json.obj o) =>
        ValidationOutcome.valid ⟨q, lookupParam qs "operationName", some o⟩
      | _ => ValidationOutcome.invalid ⟨400, malformedVariablesMsg⟩

/-- Modelled from the spec: the merged `query` of a POST request — the body
field when present (it must be a string), else the query-string parameter;
missing from both sources is the 400 required-parameter error. -/
def postQuery (fields : List (String × Json)) (qs : List (String × String)) :
    Except HttpError String :=
  match fieldOf fields "query" with
  | some (Json.str s) => Except.ok s
  | some _ => Except.error ⟨400, invalidQueryMsg⟩
  | none =>
    match lookupParam qs "query" with
    | some s => Except.ok s
    | none => Except.error ⟨400, queryRequiredMsg⟩

/-- Modelled from the spec: the merged `operationName` of a POST request —
the body field (a string) takes precedence over the query-string
parameter. -/
def postOperationName (fields : List (String × Json)) (qs : List (String × String)) :
    Except HttpError (Option String) :=
  match fieldOf fields "operationName" with
  | some (Json.str s) => Except.ok (some s)
  | some _ => Except.error ⟨400, invalidOperationNameMsg⟩
  | none => Except.ok (lookupParam qs "operationName")

/-- Modelled from the spec: the merged `variables` of a POST request — the
body field takes precedence and must itself be a JSON object (pinned by
the test sending `variables` as an object); otherwise the query-string
parameter is decoded like on GET. -/
def postVariables (dec : String → Option Json) (fields : List (String × Json))
    (qs : List (String × String)) :
    Except HttpError (Option (List (String × Json))) :=
  match fieldOf fields "variables" with
  | some (Json.obj o) => Except.ok (some o)
  | some _ => Except.error ⟨400, malformedVariablesMsg⟩
  | none =>
    match lookupParam qs "variables" with
    | none => Except.ok none
    | some vs =>
      match dec vs with
      | some (Json.obj o) => Except.ok (some o)
      | _ => Except.error ⟨400, malformedVariablesMsg⟩

/-- Modelled from the spec: merging of the POST body fields with the URL
query-string parameters, body-level values taking precedence, checked in
the order `query`, `operationName`, `variables`. -/
def mergeParams (dec : String → Option Json) (fields : List (String × Json))
    (qs : List (String × String)) : ValidationOutcome :=
  match postQuery fields qs with
  | Except.error e => ValidationOutcome.invalid e
  | Except.ok q =>
    match postOperationName fields qs with
    | Except.error e => ValidationOutcome.invalid e
    | Except.ok onm =>
      match postVariables dec fields qs with
      | Except.error e => ValidationOutcome.invalid e
      | Except.ok vs => ValidationOutcome.valid ⟨q, onm, vs⟩

/-- Modelled from the spec: POST-side extraction. A missing `Content-Type`
header is a 400 required-header error (pinned by the test suite); an
unsupported declared media type is a 415; under a supported JSON media type
the body must decode to a JSON object whose fields are merged with the URL
query-string parameters. -/
def extractPost (dec : String → Option Json) (ct : Option String) (body : Body)
    (qs : List (String × String)) : ValidationOutcome :=
  match ct with
  | none => ValidationOutcome.invalid ⟨400, headerRequiredMsg⟩
  | some ctv =>
    if supportedMediaType ctv then
      match body with
      | Body.jsonBody (Json.obj fields) => mergeParams dec fields qs
      | _ => ValidationOutcome.invalid ⟨400, malformedBodyMsg⟩
    else ValidationOutcome.invalid ⟨415, unsupportedMediaTypeMsg⟩

/-- Modelled from the spec: the Parameter Extractor contract
`extract(request) -> ValidationOutcome`, dispatching on the HTTP method;
methods outside GET and POST short-circuit with a generic bad request. -/
def extract (dec : String → Option Json) (req : Request) : ValidationOutcome :=
  match req.method with
  | Method.get => extractGet dec req.queryParams
  | Method.post => extractPost dec req.contentTypeHeader req.body req.queryParams
  | Method.other _ => ValidationOutcome.invalid ⟨400, invalidMethodMsg⟩

/-! ## Request Validator, mutation-on-GET check (spec §4.3) -/

/-- The operation a request designates: the one named by `operationName`, or
the sole operation of the document when no name is given. -/
def selectOperation (ops : List Operation) (nm : Option String) : Option Operation :=
  match nm with
  | some n => ops.find? fun op => op.name == some n
  | none =>
    match ops with
    | [op] => some op
    | _ => none

/-- Modelled from the spec: the mutation-on-GET prohibition — if the selected
operation of a GET request is a mutation, the request fails with 405. A
document the engine cannot parse is left to the Execution Delegate, which
surfaces the syntax error as a request-level GraphQL error. -/
def mutationOnGetCheck (eng : Engine) (p : GraphQLParameters) : Option HttpError :=
  match eng.parse p.query with
  | none => none
  | some ops =>
    match selectOperation ops p.operationName with
    | some op =>
      if op.opType = OperationType.mutation then some ⟨405, mutationOnGetMsg⟩ else none
    | none => none

/-! ## The pipeline (spec §2) -/

/-- Generic message of a 500 response; the original fault detail is not
leaked to the client. -/
def internalErrorMsg : String := "Internal Server Error"

/-- Modelled from the spec: the call into the Execution Delegate; a thrown
fault is caught and reclassified as an unknown/internal error. -/
def runExecution (eng : Engine) (p : GraphQLParameters) : Outcome :=
  match eng.execute p with
  | Except.ok r => Outcome.exec r
  | Except.error _ => Outcome.fault internalErrorMsg

/-- Modelled from the spec: classification of a request into the outcome
handed to the Response Resolver — extraction, the mutation-on-GET check
for GET requests, then execution. -/
def handleRequest (eng : Engine) (dec : String → Option Json) (req : Request) :
    Outcome :=
  match extract dec req with
  | ValidationOutcome.invalid e => Outcome.httpError e
  | ValidationOutcome.valid p =>
    if req.method = Method.get then
      match mutationOnGetCheck eng p with
      | some e => Outcome.httpError e
      | none => runExecution eng p
    else runExecution eng p

/-- Modelled from the spec: the middleware `graphqlHttp`, absent from the
shipped sources — negotiate the response media type, then classify the
request and resolve the final response. A non-negotiable `Accept` header
is a 406 served with the default JSON media type. -/
def graphqlHttp (eng : Engine) (dec : String → Option Json) (req : Request) :
    ResponseDecision :=
  match negotiate req.accept with
  | none => ⟨406, errorBody [notAcceptableMsg], mediaTypeString MediaType.json⟩
  | some mt => resolveResponse (handleRequest eng dec req) mt

/-- Whether a validation outcome is valid. -/
def isValid : ValidationOutcome → Bool
  | ValidationOutcome.valid _ => true
  | ValidationOutcome.invalid _ => false

/-! ## Concrete fixtures used by the witnesses -/

/-- A JSON decoder that never succeeds; used where no `variables` query-string
parameter is involved. -/
def dec0 : String → Option Json := fun _ => none

/-- The `data` value of the happy-path tests. -/
def dataHello : Json := Json.obj [("test", Json.str "Hello World")]

/-- An engine whose documents carry one query operation and whose execution
always succeeds with `dataHello`. -/
def engOk : Engine :=
  ⟨fun _ => some [⟨some "TestQuery", OperationType.query⟩],
   fun _ => Except.ok ⟨some dataHello, none, none⟩⟩

/-- The operations of the two-operation document of the mutation-over-GET
test: a mutation `TestMutation` and a query `TestQuery`. -/
def opsDoc : List Operation :=
  [⟨some "TestMutation", OperationType.mutation⟩, ⟨some "TestQuery", OperationType.query⟩]

/-- An engine parsing every document to `opsDoc` and executing to
`dataHello`. -/
def engMut : Engine :=
  ⟨fun _ => some opsDoc, fun _ => Except.ok ⟨some dataHello, none, none⟩⟩

/-- A GET request without any query-string parameter. -/
def reqNoQuery : Request := ⟨Method.get, none, none, Body.absent, []⟩

/-- A request-level GraphQL error entry, as the engine reports a validation
failure. -/
def validationErr : Json :=
  Json.obj [("message", Json.str "Cannot query field unknown on type QueryRoot")]

/-- An execution result carrying only request-level errors and no data. -/
def requestErrorResult : ExecResult := ⟨none, some [validationErr], none⟩

/-! ## Claims -/

/-- C1: for every execution result carrying request-level GraphQL errors
(no `data` produced at all), the Response Resolver answers 400 under
`application/graphql+json` and 200 under `application/json`, with the same
errors payload as the body in both cases. -/
theorem requestErrorStatus (r : ExecResult) (es : List Json)
    (herr : r.errors = some es) (hdata : r.data = none) :
    resolveResponse (Outcome.exec r) MediaType.graphqlJson =
      ⟨400, execBody r, mediaTypeString MediaType.graphqlJson⟩ ∧
    resolveResponse (Outcome.exec r) MediaType.json =
      ⟨200, execBody r, mediaTypeString MediaType.json⟩ ∧
    (resolveResponse (Outcome.exec r) MediaType.graphqlJson).body =
      (resolveResponse (Outcome.exec r) MediaType.json).body := by
  refine ⟨?_, ?_, ?_⟩ <;> simp [resolveResponse, herr, hdata]

/-- Witness for C1 at the concrete request-error result. -/
theorem requestErrorStatusWitness :
    resolveResponse (Outcome.exec requestErrorResult) MediaType.graphqlJson =
      ⟨400, execBody requestErrorResult, mediaTypeString MediaType.graphqlJson⟩ ∧
    resolveResponse (Outcome.exec requestErrorResult) MediaType.json =
      ⟨200, execBody requestErrorResult, mediaTypeString MediaType.json⟩ ∧
    (resolveResponse (Outcome.exec requestErrorResult) MediaType.graphqlJson).body =
      (resolveResponse (Outcome.exec requestErrorResult) MediaType.json).body :=
  requestErrorStatus requestErrorResult [validationErr] rfl rfl

/-- C2: a GET request without a `query` parameter yields status 400 with body
`errors: [message: The parameter is required. "query"]`, whatever the
negotiated content type. -/
theorem getMissingQuery (eng : Engine) (dec : String → Option Json) (req : Request)
    (mt : MediaType) (hm : req.method = Method.get)
    (hq : lookupParam req.queryParams "query" = none)
    (hn : negotiate req.accept = some mt) :
    graphqlHttp eng dec req = ⟨400, errorBody [queryRequiredMsg], mediaTypeString mt⟩ := by
  simp [graphqlHttp, hn, handleRequest, extract, hm, extractGet, hq, resolveResponse]

/-- Witness for C2 at the concrete parameterless GET request. -/
theorem getMissingQueryWitness :
    graphqlHttp engOk dec0 reqNoQuery =
      ⟨400, errorBody [queryRequiredMsg], mediaTypeString MediaType.json⟩ :=
  getMissingQuery engOk dec0 reqNoQuery MediaType.json rfl rfl rfl

/-- C4: for every execution result carrying field-level errors together with
`data`, the response is 200 and the body holds both the data and the
errors, under each negotiated media type. -/
theorem fieldErrorStatus (r : ExecResult) (d : Json) (es : List Json) (mt : MediaType)
    (hdata : r.data = some d) (herr : r.errors = some es) :
    resolveResponse (Outcome.exec r) mt =
      ⟨200,
        Json.obj (("data", d) :: ("errors", Json.arr es) ::
          optField "extensions" r.extensions),
        mediaTypeString mt⟩ := by
  simp [resolveResponse, herr, hdata, execBody, optField]

/-- Witness for C4 at the `thrower` execution result: the failed field is
null inside `data` and a matching message is inside `errors`. -/
theorem fieldErrorStatusWitness :
    resolveResponse
        (Outcome.exec
          ⟨some (Json.obj [("thrower", Json.null)]),
           some [Json.obj [("message", Json.str "Throws!")]], none⟩)
        MediaType.json =
      ⟨200,
        Json.obj
          [("data", Json.obj [("thrower", Json.null)]),
           ("errors", Json.arr [Json.obj [("message", Json.str "Throws!")]])],
        mediaTypeString MediaType.json⟩ :=
  fieldErrorStatus
    ⟨some (Json.obj [("thrower", Json.null)]),
     some [Json.obj [("message", Json.str "Throws!")]], none⟩
    (Json.obj [("thrower", Json.null)])
    [Json.obj [("message", Json.str "Throws!")]] MediaType.json rfl rfl

/-- C3, counterexample: a POST request without a `Content-Type` header is
rejected with status category 400 (as the test suite requires), not 415 as
the claim states. -/
theorem missingContentTypeCounterexample :
    extractPost dec0 none Body.absent [] =
      ValidationOutcome.invalid ⟨400, headerRequiredMsg⟩ ∧
    (400 : Nat) ≠ 415 :=
  ⟨rfl, by decide⟩

/-- C3, amended: a POST request without a `Content-Type` header yields an
`Invalid` outcome of category 400 with a message naming `Content-Type`,
while an unsupported declared value yields category 415 with a distinct
message. -/
theorem missingContentTypeIs400 (dec : String → Option Json) (body : Body)
    (qs : List (String × String)) :
    extractPost dec none body qs = ValidationOutcome.invalid ⟨400, headerRequiredMsg⟩ ∧
    extractPost dec (some "text/html") body qs =
      ValidationOutcome.invalid ⟨415, unsupportedMediaTypeMsg⟩ ∧
    headerRequiredMsg ≠ unsupportedMediaTypeMsg := by
  refine ⟨rfl, ?_, by decide⟩
  have hsup : supportedMediaType "text/html" = false := rfl
  simp [extractPost, hsup]

/-- C5: on a GET request whose designated operation (by `operationName`, or
the sole operation) is a mutation, the handler answers 405; when the
designated operation is a query, the document may hold a mutation
elsewhere and the request still executes to 200. -/
theorem mutationOnGet (eng : Engine) (dec : String → Option Json) (req : Request)
    (mt : MediaType) (p : GraphQLParameters) (ops : List Operation)
    (hm : req.method = Method.get)
    (hn : negotiate req.accept = some mt)
    (he : extract dec req = ValidationOutcome.valid p)
    (hp : eng.parse p.query = some ops) :
    (∀ op, selectOperation ops p.operationName = some op →
      op.opType = OperationType.mutation →
      graphqlHttp eng dec req = ⟨405, errorBody [mutationOnGetMsg], mediaTypeString mt⟩) ∧
    (∀ op d, selectOperation ops p.operationName = some op →
      op.opType = OperationType.query →
      eng.execute p = Except.ok ⟨some d, none, none⟩ →
      graphqlHttp eng dec req = ⟨200, Json.obj [("data", d)], mediaTypeString mt⟩) := by
  constructor
  · intro op hsel hmut
    simp [graphqlHttp, hn, handleRequest, he, hm, mutationOnGetCheck, hp, hsel, hmut,
      resolveResponse]
  · intro op d hsel hqr hexec
    simp [graphqlHttp, hn, handleRequest, he, hm, mutationOnGetCheck, hp, hsel, hqr,
      runExecution, hexec, resolveResponse, execBody, optField]

/-- Witness for C5 at the two-operation document: designating the mutation
gives 405, designating the query gives 200 with the data, the mutation in
the document notwithstanding. -/
theorem mutationOnGetWitness :
    graphqlHttp engMut dec0
        ⟨Method.get, none, none, Body.absent,
          [("query", "double operation document"), ("operationName", "TestMutation")]⟩ =
      ⟨405, errorBody [mutationOnGetMsg], mediaTypeString MediaType.json⟩ ∧
    graphqlHttp engMut dec0
        ⟨Method.get, none, none, Body.absent,
          [("query", "double operation document"), ("operationName", "TestQuery")]⟩ =
      ⟨200, Json.obj [("data", dataHello)], mediaTypeString MediaType.json⟩ :=
  ⟨(mutationOnGet engMut dec0
      ⟨Method.get, none, none, Body.absent,
        [("query", "double operation document"), ("operationName", "TestMutation")]⟩
      MediaType.json ⟨"double operation document", some "TestMutation", none⟩ opsDoc
      rfl rfl rfl rfl).1
      ⟨some "TestMutation", OperationType.mutation⟩ rfl rfl,
   (mutationOnGet engMut dec0
      ⟨Method.get, none, none, Body.absent,
        [("query", "double operation document"), ("operationName", "TestQuery")]⟩
      MediaType.json ⟨"double operation document", some "TestQuery", none⟩ opsDoc
      rfl rfl rfl rfl).2
      ⟨some "TestQuery", OperationType.query⟩ dataHello rfl rfl rfl⟩

/-- C6: a POST request under a supported JSON content type whose body is
absent or not valid JSON yields 400 with the malformed-JSON-body
message. -/
theorem postMalformedBody (eng : Engine) (dec : String → Option Json) (req : Request)
    (mt : MediaType) (ct : String)
    (hm : req.method = Method.post)
    (hct : req.contentTypeHeader = some ct)
    (hsup : supportedMediaType ct = true)
    (hb : req.body = Body.absent ∨ req.body = Body.malformed)
    (hn : negotiate req.accept = some mt) :
    graphqlHttp eng dec req = ⟨400, errorBody [malformedBodyMsg], mediaTypeString mt⟩ := by
  rcases hb with h | h <;>
    simp [graphqlHttp, hn, handleRequest, extract, hm, extractPost, hct, hsup, h,
      resolveResponse]

/-- Witness for C6 at the bodiless JSON POST request of the test suite. -/
theorem postMalformedBodyWitness :
    graphqlHttp engOk dec0
        ⟨Method.post, some "application/json; charset=UTF-8", none, Body.absent, []⟩ =
      ⟨400, errorBody [malformedBodyMsg], mediaTypeString MediaType.json⟩ :=
  postMalformedBody engOk dec0
    ⟨Method.post, some "application/json; charset=UTF-8", none, Body.absent, []⟩
    MediaType.json "application/json; charset=UTF-8" rfl rfl rfl (Or.inl rfl) rfl

/-- The POST body of the variables test: `query` a string and `variables` a
JSON object. -/
def bodyWithObjectVariables : Json :=
  Json.obj [("query", Json.str "query helloWho"),
    ("variables", Json.obj [("who", Json.str "Dolly")])]

/-- C7, counterexample: a POST body whose `variables` field is a JSON object
(not a JSON string) is accepted — extraction yields a `Valid` outcome, as
the test suite requires, where the claim demands `Invalid`. -/
theorem postObjectVariablesCounterexample :
    extractPost dec0 (some "application/json") (Body.jsonBody bodyWithObjectVariables) [] =
      ValidationOutcome.valid
        ⟨"query helloWho", none, some [("who", Json.str "Dolly")]⟩ ∧
    isValid
        (extractPost dec0 (some "application/json")
          (Body.jsonBody bodyWithObjectVariables) []) = true :=
  ⟨rfl, rfl⟩

/-- C7, amended: in a POST JSON body, `query` and `operationName` keep the
GET string constraints, while `variables`, if present, must itself be a
JSON object, read directly; a non-object `variables` value yields an
`Invalid` outcome. -/
theorem postVariablesObject (dec : String → Option Json) (ct : String)
    (fields : List (String × Json)) (qs : List (String × String)) (q : String)
    (o : List (String × Json)) (v : Json)
    (hsup : supportedMediaType ct = true)
    (hq : fieldOf fields "query" = some (Json.str q))
    (hon : fieldOf fields "operationName" = none) :
    (fieldOf fields "variables" = some (Json.obj o) →
      extractPost dec (some ct) (Body.jsonBody (Json.obj fields)) qs =
        ValidationOutcome.valid ⟨q, lookupParam qs "operationName", some o⟩) ∧
    (fieldOf fields "variables" = some v → (∀ o2, v ≠ Json.obj o2) →
      extractPost dec (some ct) (Body.jsonBody (Json.obj fields)) qs =
        ValidationOutcome.invalid ⟨400, malformedVariablesMsg⟩) := by
  constructor
  · intro hv
    simp [extractPost, hsup, mergeParams, postQuery, hq, postOperationName, hon,
      postVariables, hv]
  · intro hv hno
    cases v with
    | obj o2 => exact absurd rfl (hno o2)
    | null =>
      simp [extractPost, hsup, mergeParams, postQuery, hq, postOperationName, hon,
        postVariables, hv]
    | bool b =>
      simp [extractPost, hsup, mergeParams, postQuery, hq, postOperationName, hon,
        postVariables, hv]
    | num n =>
      simp [extractPost, hsup, mergeParams, postQuery, hq, postOperationName, hon,
        postVariables, hv]
    | str s =>
      simp [extractPost, hsup, mergeParams, postQuery, hq, postOperationName, hon,
        postVariables, hv]
    | arr elts =>
      simp [extractPost, hsup, mergeParams, postQuery, hq, postOperationName, hon,
        postVariables, hv]

/-- Witness for C7 at the body of the variables test and at a string-valued
`variables` field. -/
theorem postVariablesObjectWitness :
    extractPost dec0 (some "application/json")
        (Body.jsonBody (Json.obj [("query", Json.str "query helloWho"),
          ("variables", Json.obj [("who", Json.str "Dolly")])])) [] =
      ValidationOutcome.valid
        ⟨"query helloWho", none, some [("who", Json.str "Dolly")]⟩ ∧
    extractPost dec0 (some "application/json")
        (Body.jsonBody (Json.obj [("query", Json.str "query helloWho"),
          ("variables", Json.str "not an object")])) [] =
      ValidationOutcome.invalid ⟨400, malformedVariablesMsg⟩ :=
  ⟨(postVariablesObject dec0 "application/json"
      [("query", Json.str "query helloWho"),
        ("variables", Json.obj [("who", Json.str "Dolly")])] []
      "query helloWho" [("who", Json.str "Dolly")] Json.null rfl rfl rfl).1 rfl,
   (postVariablesObject dec0 "application/json"
      [("query", Json.str "query helloWho"), ("variables", Json.str "not an object")] []
      "query helloWho" [] (Json.str "not an object") rfl rfl rfl).2 rfl
      (fun _ h => Json.noConfusion h)⟩

/-- C8, counterexample: with both recognized types listed at equal quality
and `application/graphql+json` first, negotiation selects
`application/graphql+json` — not `application/json` as the claim's
equal-priority clause demands (the README requires exactly this listing to
select `application/graphql+json`). -/
theorem equalPriorityCounterexample :
    negotiate
        (some [⟨"application/graphql+json", 1000⟩, ⟨"application/json", 1000⟩]) =
      some MediaType.graphqlJson ∧
    some MediaType.graphqlJson ≠ some MediaType.json :=
  ⟨rfl, by decide⟩

/-- C8, amended: an absent `Accept` header and the bare wildcard negotiate to
`application/json`; under equal quality the type listed first wins, so
`application/graphql+json` is selected exactly when the client ranks it
higher — first at no lower quality, or anywhere at strictly higher
quality — and `application/json` is selected when it is listed first at no
lower quality. -/
theorem negotiatePreference :
    negotiate none = some MediaType.json ∧
    (∀ q, 0 < q → negotiate (some [⟨"*/*", q⟩]) = some MediaType.json) ∧
    (∀ q q2, 0 < q → q2 ≤ q →
      negotiate (some [⟨"application/graphql+json", q⟩, ⟨"application/json", q2⟩]) =
        some MediaType.graphqlJson) ∧
    (∀ q q2, q < q2 →
      negotiate (some [⟨"application/json", q⟩, ⟨"application/graphql+json", q2⟩]) =
        some MediaType.graphqlJson) ∧
    (∀ q q2, 0 < q → q2 ≤ q →
      negotiate (some [⟨"application/json", q⟩, ⟨"application/graphql+json", q2⟩]) =
        some MediaType.json) := by
  refine ⟨rfl, ?_, ?_, ?_, ?_⟩
  · intro q hq
    simp [negotiate, recognizedType, chooseCandidate, hq]
  · intro q q2 hq hle
    have hnlt : ¬ q < q2 := by omega
    by_cases h2 : 0 < q2 <;>
      simp [negotiate, recognizedType, chooseCandidate, hq, h2, hnlt]
  · intro q q2 hlt
    have h2 : 0 < q2 := by omega
    by_cases hq : 0 < q <;>
      simp [negotiate, recognizedType, chooseCandidate, hq, h2, hlt]
  · intro q q2 hq hle
    have hnlt : ¬ q < q2 := by omega
    by_cases h2 : 0 < q2 <;>
      simp [negotiate, recognizedType, chooseCandidate, hq, h2, hnlt]

/-- Witness for C8 at the quality values of the README examples. -/
theorem negotiatePreferenceWitness :
    negotiate (some [⟨"*/*", 1000⟩]) = some MediaType.json ∧
    negotiate
        (some [⟨"application/graphql+json", 1000⟩, ⟨"application/json", 1000⟩]) =
      some MediaType.graphqlJson ∧
    negotiate
        (some [⟨"application/json", 500⟩, ⟨"application/graphql+json", 1000⟩]) =
      some MediaType.graphqlJson ∧
    negotiate
        (some [⟨"application/json", 1000⟩, ⟨"application/graphql+json", 1000⟩]) =
      some MediaType.json :=
  ⟨negotiatePreference.2.1 1000 (by decide),
   negotiatePreference.2.2.1 1000 1000 (by decide) (by decide),
   negotiatePreference.2.2.2.1 500 1000 (by decide),
   negotiatePreference.2.2.2.2 1000 1000 (by decide) (by decide)⟩

/-- C9: for every POST JSON body that omits the `query` field, a query-string
`query` substitutes for it — whatever else the body carries — and the
request executes to 200 with data; and whenever the body supplies a value
for a parameter (`query`, `operationName` or `variables`), the body-level
value takes precedence over the query string. -/
theorem postQueryMerging :
    (∀ (dec : String → Option Json) (fields : List (String × Json))
        (qs : List (String × String)) (q : String) (p : GraphQLParameters),
      fieldOf fields "query" = none →
      lookupParam qs "query" = some q →
      mergeParams dec fields qs = ValidationOutcome.valid p →
      p.query = q) ∧
    (∀ (eng : Engine) (dec : String → Option Json) (req : Request) (mt : MediaType)
        (ct : String) (fields : List (String × Json)) (q : String)
        (p : GraphQLParameters) (d : Json),
      req.method = Method.post →
      req.contentTypeHeader = some ct →
      supportedMediaType ct = true →
      req.body = Body.jsonBody (Json.obj fields) →
      fieldOf fields "query" = none →
      lookupParam req.queryParams "query" = some q →
      mergeParams dec fields req.queryParams = ValidationOutcome.valid p →
      negotiate req.accept = some mt →
      eng.execute p = Except.ok ⟨some d, none, none⟩ →
      graphqlHttp eng dec req = ⟨200, Json.obj [("data", d)], mediaTypeString mt⟩) ∧
    (∀ (dec : String → Option Json) (fields : List (String × Json))
        (qs : List (String × String)) (p : GraphQLParameters),
      mergeParams dec fields qs = ValidationOutcome.valid p →
      (∀ bq, fieldOf fields "query" = some (Json.str bq) → p.query = bq) ∧
      (∀ onm, fieldOf fields "operationName" = some (Json.str onm) →
        p.operationName = some onm) ∧
      (∀ o, fieldOf fields "variables" = some (Json.obj o) →
        p.variableValues = some o)) := by
  refine ⟨?_, ?_, ?_⟩
  · intro dec fields qs q p hbq hq hm
    have h1 : postQuery fields qs = Except.ok q := by simp [postQuery, hbq, hq]
    simp only [mergeParams, h1] at hm
    rcases h2 : postOperationName fields qs with e | onm <;> simp only [h2] at hm
    · exact ValidationOutcome.noConfusion hm
    · rcases h3 : postVariables dec fields qs with e | vs <;> simp only [h3] at hm
      · exact ValidationOutcome.noConfusion hm
      · injection hm with h4
        rw [← h4]
  · intro eng dec req mt ct fields q p d hpost hct hsup hb _ _ hmerge hn hexec
    simp [graphqlHttp, hn, handleRequest, extract, hpost, extractPost, hct, hsup, hb,
      hmerge, runExecution, hexec, resolveResponse, execBody, optField]
  · intro dec fields qs p hm
    refine ⟨?_, ?_, ?_⟩
    · intro bq hbq
      have h1 : postQuery fields qs = Except.ok bq := by simp [postQuery, hbq]
      simp only [mergeParams, h1] at hm
      rcases h2 : postOperationName fields qs with e | onm <;> simp only [h2] at hm
      · exact ValidationOutcome.noConfusion hm
      · rcases h3 : postVariables dec fields qs with e | vs <;> simp only [h3] at hm
        · exact ValidationOutcome.noConfusion hm
        · injection hm with h4
          rw [← h4]
    · intro onm hbo
      have h2 : postOperationName fields qs = Except.ok (some onm) := by
        simp [postOperationName, hbo]
      rcases h1 : postQuery fields qs with e | q <;> simp only [mergeParams, h1] at hm
      · exact ValidationOutcome.noConfusion hm
      · simp only [h2] at hm
        rcases h3 : postVariables dec fields qs with e | vs <;> simp only [h3] at hm
        · exact ValidationOutcome.noConfusion hm
        · injection hm with h4
          rw [← h4]
    · intro o hbv
      have h3 : postVariables dec fields qs = Except.ok (some o) := by
        simp [postVariables, hbv]
      rcases h1 : postQuery fields qs with e | q <;> simp only [mergeParams, h1] at hm
      · exact ValidationOutcome.noConfusion hm
      · rcases h2 : postOperationName fields qs with e | onm <;> simp only [h2] at hm
        · exact ValidationOutcome.noConfusion hm
        · simp only [h3] at hm
          injection hm with h4
          rw [← h4]

/-- A POST body omitting `query` but carrying another parameter. -/
def bodyOmittingQuery : List (String × Json) := [("operationName", Json.str "TestQuery")]

/-- A POST body supplying all three parameters, to override the query
string. -/
def bodyOverriding : List (String × Json) :=
  [("query", Json.str "body document"), ("operationName", Json.str "BodyOp"),
    ("variables", Json.obj [("who", Json.str "Dolly")])]

/-- Witness for C9: a body omitting `query` (but carrying `operationName`)
takes the query-string `query` and executes to 200, and a body supplying
all three parameters wins over conflicting query-string values. -/
theorem postQueryMergingWitness :
    (⟨"url document", some "TestQuery", none⟩ : GraphQLParameters).query =
      "url document" ∧
    graphqlHttp engOk dec0
        ⟨Method.post, some "application/json; charset=UTF-8", none,
          Body.jsonBody (Json.obj bodyOmittingQuery), [("query", "url document")]⟩ =
      ⟨200, Json.obj [("data", dataHello)], mediaTypeString MediaType.json⟩ ∧
    (⟨"body document", some "BodyOp", some [("who", Json.str "Dolly")]⟩ :
        GraphQLParameters).query = "body document" ∧
    (⟨"body document", some "BodyOp", some [("who", Json.str "Dolly")]⟩ :
        GraphQLParameters).operationName = some "BodyOp" ∧
    (⟨"body document", some "BodyOp", some [("who", Json.str "Dolly")]⟩ :
        GraphQLParameters).variableValues = some [("who", Json.str "Dolly")] :=
  ⟨postQueryMerging.1 dec0 bodyOmittingQuery [("query", "url document")]
      "url document" ⟨"url document", some "TestQuery", none⟩ rfl rfl rfl,
   postQueryMerging.2.1 engOk dec0
      ⟨Method.post, some "application/json; charset=UTF-8", none,
        Body.jsonBody (Json.obj bodyOmittingQuery), [("query", "url document")]⟩
      MediaType.json "application/json; charset=UTF-8" bodyOmittingQuery
      "url document" ⟨"url document", some "TestQuery", none⟩ dataHello
      rfl rfl rfl rfl rfl rfl rfl rfl rfl,
   (postQueryMerging.2.2 dec0 bodyOverriding
      [("query", "url document"), ("operationName", "UrlOp")]
      ⟨"body document", some "BodyOp", some [("who", Json.str "Dolly")]⟩ rfl).1
      "body document" rfl,
   (postQueryMerging.2.2 dec0 bodyOverriding
      [("query", "url document"), ("operationName", "UrlOp")]
      ⟨"body document", some "BodyOp", some [("who", Json.str "Dolly")]⟩ rfl).2.1
      "BodyOp" rfl,
   (postQueryMerging.2.2 dec0 bodyOverriding
      [("query", "url document"), ("operationName", "UrlOp")]
      ⟨"body document", some "BodyOp", some [("who", Json.str "Dolly")]⟩ rfl).2.2
      [("who", Json.str "Dolly")] rfl⟩

/-- The Response Resolver stamps every decision with the serialized
negotiated media type. -/
theorem resolveResponse_contentTypeValue (o : Outcome) (mt : MediaType) :
    (resolveResponse o mt).contentType = mediaTypeString mt := by
  cases o with
  | httpError e => rfl
  | fault m => rfl
  | exec r =>
    cases herr : r.errors <;> cases hd : r.data <;> simp [resolveResponse, herr, hd]

/-- C10: whenever the negotiated media type is `application/json`, the
response — success or error alike — carries the `Content-Type` header
value `application/json; charset=UTF-8`, the charset parameter appended to
the negotiated media type. -/
theorem jsonResponseHeader (eng : Engine) (dec : String → Option Json) (req : Request)
    (hn : negotiate req.accept = some MediaType.json) :
    (graphqlHttp eng dec req).contentType = "application/json; charset=UTF-8" := by
  simp [graphqlHttp, hn, resolveResponse_contentTypeValue, mediaTypeString]

/-- Witness for C10 at a success request and at an error request. -/
theorem jsonResponseHeaderWitness :
    (graphqlHttp engOk dec0
        ⟨Method.get, none, none, Body.absent, [("query", "single document")]⟩).contentType =
      "application/json; charset=UTF-8" ∧
    (graphqlHttp engOk dec0 reqNoQuery).contentType =
      "application/json; charset=UTF-8" :=
  ⟨jsonResponseHeader engOk dec0
      ⟨Method.get, none, none, Body.absent, [("query", "single document")]⟩ rfl,
   jsonResponseHeader engOk dec0 reqNoQuery rfl⟩

end GraphqlHttp
